import Mathlib

/-!
Shallow embedding of the incident lifecycle, visibility policy, audit logging,
resolution-report and archive logic of the campus emergency-alert admin backend
(`app.py`).  Database tables are modelled as Lean lists, rows as structures, and
each request handler's core state change as an explicit state-passing function.
External failures that the code explicitly tolerates (audit-log insert failure,
resolution-report insert failure, report-cascade delete failure) are modelled
as Boolean / `Option String` oracle parameters; all other data-store calls are
modelled as succeeding, matching the code's happy path inside its `try` blocks.
Identifiers (incident ids, admin ids) are strings, as the code compares them
through `str(...)` coercion.
-/

namespace EclipseSystem

/-- Python truthiness of an optional string field (`None` and `""` are falsy). -/
def pyTruthy : Option String → Bool
  | none => false
  | some s => s != ""

/-- Python `str.strip()` at the code-point level (Python strings are sequences
of code points; `String.trim` is byte-position based and does not reduce in the
kernel, so the list-level equivalent is used). -/
def pyStrip (s : String) : String :=
  String.mk (((s.data.dropWhile Char.isWhitespace).reverse.dropWhile
    Char.isWhitespace).reverse)

/-- A row of the `alert_incidents` table.  Location, image and category-subtype
columns are copied verbatim by the code and never inspected by the logic
modelled here, so they are elided. -/
structure Incident where
  icd_id : String
  icd_status : String
  assigned_responder_id : Option String := none
  icd_timestamp : Option String := none
  pending_timestamp : Option String := none
  resolved_timestamp : Option String := none
  cancelled_timestamp : Option String := none
  status_updated_at : Option String := none
  status_updated_by : Option String := none
  user_id : Option String := none
  icd_category : Option String := none
  icd_description : Option String := none
  deriving Repr, DecidableEq

/-- Model of `supabase.table('alert_incidents').select(...).eq('icd_id', incident_id)`
followed by taking `result.data[0]`: the first row matching the id. -/
def findIncident (db : List Incident) (incident_id : String) : Option Incident :=
  db.find? (fun i => i.icd_id == incident_id)

/-- Model of `supabase.table('alert_incidents').update(data).eq('icd_id', incident_id)`:
apply the update to every row whose id matches. -/
def updateIncidents (db : List Incident) (incident_id : String)
    (f : Incident → Incident) : List Incident :=
  db.map (fun i => if i.icd_id == incident_id then f i else i)

/-- Embeds `can_admin_edit_incident` (app.py): closed incidents are not editable,
unassigned ones are editable by anyone, assigned ones only by their responder. -/
def can_admin_edit_incident (db : List Incident) (incident_id admin_id : String) :
    Bool × String :=
  match findIncident db incident_id with
  | none => (false, "Incident not found")
  | some incident =>
    let status := incident.icd_status
    let assigned := incident.assigned_responder_id
    if status == "Resolved" || status == "Cancelled" then
      (false, "Incident is " ++ status ++ " and cannot be modified")
    else if ! pyTruthy assigned then
      (true, "No responder assigned - available for assignment")
    else if assigned.getD "" == admin_id then
      (true, "You are the assigned responder")
    else
      (false, "Incident is assigned to another responder (ID: " ++ assigned.getD "" ++ ")")

/-- Embeds `can_admin_view_incident` (app.py): Active/Pending incidents assigned to a
different responder are hidden; everything else is viewable. -/
def can_admin_view_incident (db : List Incident) (incident_id admin_id : String) :
    Bool × String :=
  match findIncident db incident_id with
  | none => (false, "Incident not found")
  | some incident =>
    let status := pyStrip incident.icd_status
    let assigned := incident.assigned_responder_id
    if status == "Active" || status == "Pending" then
      if pyTruthy assigned && (assigned.getD "" != admin_id) then
        (false, "This incident is assigned to another responder")
      else
        (true, "Incident is viewable")
    else
      (true, "Incident is viewable")

/-- Embeds `filter_incidents_for_admin` (app.py): with a falsy admin id the input list
is returned unchanged; otherwise Active/Pending incidents assigned to another
responder are dropped. -/
def filter_incidents_for_admin (incidents : List Incident) (admin_id : Option String) :
    List Incident :=
  if ! pyTruthy admin_id then incidents
  else
    let admin_id_str := admin_id.getD ""
    incidents.filter (fun incident =>
      let status := pyStrip incident.icd_status
      let assigned := incident.assigned_responder_id
      !((status == "Active" || status == "Pending") && pyTruthy assigned
          && (assigned.getD "" != admin_id_str)))

/-- A Resolved incident assigned to admin `A1`, used as a concrete witness. -/
def sampleResolved : Incident :=
  { icd_id := "ICD001", icd_status := "Resolved", assigned_responder_id := some "A1" }

/-- C1: for every incident whose status is Resolved or Cancelled and for every
admin id (including the admin who resolved it), `can_admin_edit_incident`
returns `(False, reason)` and `can_admin_view_incident` returns `(True, _)`:
closed incidents are viewable by everyone and editable by no one. -/
theorem c1_closed_incidents_view_only (db : List Incident) (incident_id admin_id : String)
    (incident : Incident) (hfind : findIncident db incident_id = some incident)
    (hstatus : incident.icd_status = "Resolved" ∨ incident.icd_status = "Cancelled") :
    (can_admin_edit_incident db incident_id admin_id).1 = false ∧
    (can_admin_edit_incident db incident_id admin_id).2 =
      "Incident is " ++ incident.icd_status ++ " and cannot be modified" ∧
    (can_admin_view_incident db incident_id admin_id).1 = true := by
  have hedit : can_admin_edit_incident db incident_id admin_id =
      (false, "Incident is " ++ incident.icd_status ++ " and cannot be modified") := by
    unfold can_admin_edit_incident
    rw [hfind]
    rcases hstatus with h | h <;> simp [h]
  have hview : can_admin_view_incident db incident_id admin_id =
      (true, "Incident is viewable") := by
    unfold can_admin_view_incident
    rw [hfind]
    dsimp only
    rcases hstatus with h | h <;> rw [h] <;> rw [if_neg (by decide)]
  exact ⟨by rw [hedit], by rw [hedit], by rw [hview]⟩

/-- Closed witness for `c1_closed_incidents_view_only`. -/
theorem c1_closed_incidents_view_only_witness :
    (can_admin_edit_incident [sampleResolved] "ICD001" "A1").1 = false ∧
    (can_admin_edit_incident [sampleResolved] "ICD001" "A1").2 =
      "Incident is " ++ sampleResolved.icd_status ++ " and cannot be modified" ∧
    (can_admin_view_incident [sampleResolved] "ICD001" "A1").1 = true :=
  c1_closed_incidents_view_only [sampleResolved] "ICD001" "A1" sampleResolved
    (by decide) (Or.inl rfl)

theorem pyStrip_Active : pyStrip "Active" = "Active" := by decide

theorem pyStrip_Pending : pyStrip "Pending" = "Pending" := by decide

/-- An Active incident assigned to admin `A1`. -/
def sampleAssignedActive : Incident :=
  { icd_id := "ICD002", icd_status := "Active", assigned_responder_id := some "A1" }

/-- A Pending incident with no assigned responder. -/
def sampleUnassigned : Incident :=
  { icd_id := "ICD003", icd_status := "Pending" }

/-- C2: for Active/Pending incidents, an empty `assigned_responder_id` makes
both view and edit allowed for every admin; assignment to the acting admin
makes both allowed; assignment to someone else makes both denied.  Filtering
for admin B omits exactly the Active/Pending incidents assigned to some other
admin and keeps the ones assigned to B or unassigned. -/
theorem c2_active_pending_assignment_policy (db : List Incident)
    (incident_id : String) (incident : Incident)
    (hfind : findIncident db incident_id = some incident)
    (hstatus : incident.icd_status = "Active" ∨ incident.icd_status = "Pending") :
    ((incident.assigned_responder_id = none ∨ incident.assigned_responder_id = some "") →
      ∀ admin_id, (can_admin_view_incident db incident_id admin_id).1 = true ∧
        (can_admin_edit_incident db incident_id admin_id).1 = true) ∧
    (∀ admin_id, admin_id ≠ "" → incident.assigned_responder_id = some admin_id →
      (can_admin_view_incident db incident_id admin_id).1 = true ∧
      (can_admin_edit_incident db incident_id admin_id).1 = true) ∧
    (∀ admin_id other, incident.assigned_responder_id = some other → other ≠ "" →
      other ≠ admin_id →
      (can_admin_view_incident db incident_id admin_id).1 = false ∧
      (can_admin_edit_incident db incident_id admin_id).1 = false) ∧
    (∀ (l : List Incident) (B : String), B ≠ "" → ∀ inc ∈ l,
      (pyStrip inc.icd_status = "Active" ∨ pyStrip inc.icd_status = "Pending") →
      ∀ A, inc.assigned_responder_id = some A → A ≠ "" → A ≠ B →
      inc ∉ filter_incidents_for_admin l (some B)) ∧
    (∀ (l : List Incident) (B : String), B ≠ "" → ∀ inc ∈ l,
      (inc.assigned_responder_id = some B ∨ inc.assigned_responder_id = none ∨
        inc.assigned_responder_id = some "") →
      inc ∈ filter_incidents_for_admin l (some B)) := by
  refine ⟨?_, ?_, ?_, ?_, ?_⟩
  · rintro hun admin_id
    unfold can_admin_view_incident can_admin_edit_incident
    rw [hfind]
    dsimp only
    rcases hstatus with h | h <;> rcases hun with h2 | h2 <;>
      simp [h, h2, pyStrip_Active, pyStrip_Pending, pyTruthy]
  · rintro admin_id hne hassigned
    unfold can_admin_view_incident can_admin_edit_incident
    rw [hfind]
    dsimp only
    rcases hstatus with h | h <;>
      simp [h, hassigned, pyStrip_Active, pyStrip_Pending, pyTruthy, hne]
  · rintro admin_id other hassigned hne hneq
    unfold can_admin_view_incident can_admin_edit_incident
    rw [hfind]
    dsimp only
    rcases hstatus with h | h <;>
      simp [h, hassigned, pyStrip_Active, pyStrip_Pending, pyTruthy, hne, hneq]
  · rintro l B hB inc hmem hstat A hA hAne hAB
    unfold filter_incidents_for_admin
    rw [if_neg (by simp [pyTruthy, hB])]
    intro hcontra
    have := (List.mem_filter.mp hcontra).2
    rcases hstat with h | h <;>
      simp [h, hA, pyTruthy, hAne, hAB, Option.getD] at this
  · rintro l B hB inc hmem hassigned
    unfold filter_incidents_for_admin
    rw [if_neg (by simp [pyTruthy, hB])]
    refine List.mem_filter.mpr ⟨hmem, ?_⟩
    rcases hassigned with h | h | h <;> simp [h, pyTruthy]

/-- Closed witness for `c2_active_pending_assignment_policy`: admin `B9` can
neither view nor edit the Active incident assigned to `A1`. -/
theorem c2_active_pending_assignment_policy_witness :
    (can_admin_view_incident [sampleAssignedActive] "ICD002" "B9").1 = false ∧
    (can_admin_edit_incident [sampleAssignedActive] "ICD002" "B9").1 = false :=
  (c2_active_pending_assignment_policy [sampleAssignedActive] "ICD002"
      sampleAssignedActive (by decide) (Or.inl rfl)).2.2.1 "B9" "A1" rfl
    (by decide) (by decide)

/-- C10: when the admin id passed to `filter_incidents_for_admin` is falsy
(None or the empty string), the input list is returned unchanged, so
Active/Pending incidents assigned to other responders are all included. -/
theorem c10_falsy_admin_id_disables_filtering (incidents : List Incident)
    (admin_id : Option String) (h : admin_id = none ∨ admin_id = some "") :
    filter_incidents_for_admin incidents admin_id = incidents ∧
    ∀ inc ∈ incidents, inc ∈ filter_incidents_for_admin incidents admin_id := by
  have heq : filter_incidents_for_admin incidents admin_id = incidents := by
    rcases h with h | h <;> simp [filter_incidents_for_admin, h, pyTruthy]
  exact ⟨heq, fun inc hmem => by rw [heq]; exact hmem⟩

/-- Closed witness for `c10_falsy_admin_id_disables_filtering`: with a `None`
admin id the Active incident assigned to `A1` stays in the list. -/
theorem c10_falsy_admin_id_disables_filtering_witness :
    filter_incidents_for_admin [sampleAssignedActive] none = [sampleAssignedActive] ∧
    ∀ inc ∈ [sampleAssignedActive],
      inc ∈ filter_incidents_for_admin [sampleAssignedActive] none :=
  c10_falsy_admin_id_disables_filtering [sampleAssignedActive] none (Or.inl rfl)

/-- Python `str.upper()` at the code-point level. -/
def pyUpper (s : String) : String :=
  String.mk (s.data.map Char.toUpper)

/-- Python `str.lower()` at the code-point level. -/
def pyLower (s : String) : String :=
  String.mk (s.data.map Char.toLower)

/-- Whether `pat` occurs as a contiguous sublist of `l`. -/
def listContainsSub (l pat : List Char) : Bool :=
  match l with
  | [] => pat == []
  | _ :: t => pat.isPrefixOf l || listContainsSub t pat

/-- Python's substring test `pat in s`, at the code-point level. -/
def containsSub (s pat : String) : Bool :=
  listContainsSub s.data pat.data

/-- Embeds `format_incident_label` (app.py): human-readable incident code shown in
flash messages. -/
def format_incident_label (incident_id : Option String) : String :=
  match incident_id with
  | none => "Incident"
  | some raw =>
    let incident_str := pyStrip raw
    if incident_str == "" then "Incident"
    else
      let up := pyUpper incident_str
      if up.data.take 3 == ['I', 'C', 'D'] then up
      else if incident_str.data.all Char.isDigit then "ICD_9100" ++ incident_str
      else "ICD_" ++ incident_str

/-- Outcome of the most-recent-report lookup in `generate_resolution_id`:
the client may be absent, the query may raise, return no usable row, or
return the most recently created `resolved_id`. -/
inductive ResolutionLookup where
  | noClient
  | failure
  | empty
  | lastId (s : String)
  deriving Repr, DecidableEq

/-- Decimal value of a digit string, as Python `int()` computes it. -/
def digitsVal (l : List Char) : Nat :=
  l.foldl (fun n c => n * 10 + (c.toNat - 48)) 0

/-- Python `f"{n:05d}"`-style zero padding: pad with leading zeros up to
`width`, never truncating. -/
def zeroPad (width n : Nat) : String :=
  let s := toString n
  String.mk (List.replicate (width - s.length) '0' ++ s.data)

/-- Embeds `generate_resolution_id` (app.py): `RSV` plus the zero-padded successor of
the digits found in the most recently created report id; `RSV00001` when there
is no client, the lookup fails, no usable last id exists, the last id does not
start with `RSV`, or it has no digits after the prefix. -/
def generate_resolution_id (lookup : ResolutionLookup) : String :=
  let default_number : Nat := 1
  let next_number : Nat :=
    match lookup with
    | .lastId last_id =>
      let up := pyUpper last_id
      if last_id != "" && up.data.take 3 == ['R', 'S', 'V'] then
        let numeric_part := (up.data.drop 3).filter Char.isDigit
        if numeric_part != [] then digitsVal numeric_part + 1 else default_number
      else default_number
    | _ => default_number
  "RSV" ++ zeroPad 5 next_number

/-- A row of `admin_activity_logs` (written by `log_admin_activity`). -/
structure ActivityLog where
  admin_id : String
  admin_name : String
  action_type : String
  incident_id : String
  old_status : Option String
  new_status : Option String
  action_timestamp : String
  deriving Repr, DecidableEq

/-- A row of `incident_audit_trail` (written by `log_incident_change`). -/
structure AuditEntry where
  icd_id : String
  action_type : String
  old_status : Option String
  new_status : Option String
  changed_by : Option String
  change_reason : Option String
  deriving Repr, DecidableEq

/-- A row of `incident_resolution_reports` (the fields the modelled logic
reads back; the snapshot payload columns are elided). -/
structure ReportRecord where
  resolved_id : String
  icd_id : String
  deriving Repr, DecidableEq

/-- A row of `incident_archive`: the copied incident columns plus archival
metadata (payload columns elided as in `Incident`). -/
structure ArchiveRecord where
  icd_id : String
  icd_timestamp : Option String := none
  resolved_timestamp : Option String := none
  pending_timestamp : Option String := none
  cancelled_timestamp : Option String := none
  icd_status : String
  assigned_responder_id : Option String := none
  status_updated_at : Option String := none
  status_updated_by : Option String := none
  icd_category : Option String := none
  icd_description : Option String := none
  user_id : Option String := none
  archived_by : String
  archive_reason : String
  archived_at : String
  deriving Repr, DecidableEq

/-- The data-store tables touched by the modelled handlers, in row-insertion
order (the stores append new rows at the end). -/
structure AppState where
  incidents : List Incident
  activity_logs : List ActivityLog := []
  audit_trail : List AuditEntry := []
  resolution_reports : List ReportRecord := []
  incident_archive : List ArchiveRecord := []
  deriving Repr, DecidableEq

/-- Embeds `log_admin_activity` (app.py): insert a row into `admin_activity_logs`;
a raised insert error is caught and ignored, leaving every table unchanged. -/
def log_admin_activity (st : AppState) (admin_id admin_name action_type incident_id : String)
    (old_status new_status : Option String) (now : String) (fails : Bool) : AppState :=
  if fails then st
  else { st with activity_logs := st.activity_logs ++
    [{ admin_id := admin_id, admin_name := admin_name, action_type := action_type,
       incident_id := incident_id, old_status := old_status, new_status := new_status,
       action_timestamp := now }] }

/-- Embeds `log_incident_change` (app.py): insert a row into `incident_audit_trail`,
returning `False` with every table unchanged if the insert raises. -/
def log_incident_change (st : AppState) (incident_id action_type : String)
    (old_status new_status admin_id reason : Option String) (fails : Bool) :
    Bool × AppState :=
  if fails then (false, st)
  else (true, { st with audit_trail := st.audit_trail ++
    [{ icd_id := incident_id, action_type := action_type, old_status := old_status,
       new_status := new_status, changed_by := admin_id, change_reason := reason }] })

/-- The `order('created_at', desc=True).limit(1)` lookup over the
resolution-reports table: rows are kept in insertion order, so the most
recently created report is the last list element. -/
def reportLookup (reports : List ReportRecord) : ResolutionLookup :=
  match reports.getLast? with
  | none => .empty
  | some r => .lastId r.resolved_id

/-- The duplicate-key test in `create_incident_resolution_report`: the lowered
error message contains the duplicate-key phrase or names the `resolved_id`
column (a disjunction in the code). -/
def isDuplicateError (storage_error : String) : Bool :=
  containsSub (pyLower storage_error) "duplicate key value violates unique constraint"
    || containsSub (pyLower storage_error) "resolved_id"

/-- The summary-payload fields the modelled logic reads. -/
structure SummaryPayload where
  resolved_id : String
  icd_id : String
  stored : Bool
  deriving Repr, DecidableEq

/-- Persistence tail of `create_incident_resolution_report` (app.py): insert
the report; on an error recognised by `isDuplicateError`, regenerate the id
once and retry the insert; surface any remaining error as `storage_error`.
`insert1`/`insert2` are the outcomes of the two insert attempts
(`none` = success, `some msg` = raised error message). -/
def create_incident_resolution_report (st : AppState) (incident_id : String)
    (insert1 insert2 : Option String) : (SummaryPayload × Option String) × AppState :=
  let resolved_id := generate_resolution_id (reportLookup st.resolution_reports)
  match insert1 with
  | none =>
    (({ resolved_id := resolved_id, icd_id := incident_id, stored := true }, none),
      { st with resolution_reports := st.resolution_reports ++
        [{ resolved_id := resolved_id, icd_id := incident_id }] })
  | some storage_error =>
    if isDuplicateError storage_error then
      let resolved_id_retry := generate_resolution_id (reportLookup st.resolution_reports)
      match insert2 with
      | none =>
        (({ resolved_id := resolved_id_retry, icd_id := incident_id, stored := true }, none),
          { st with resolution_reports := st.resolution_reports ++
            [{ resolved_id := resolved_id_retry, icd_id := incident_id }] })
      | some retry_error =>
        (({ resolved_id := resolved_id_retry, icd_id := incident_id, stored := false },
          some retry_error), st)
    else
      (({ resolved_id := resolved_id, icd_id := incident_id, stored := false },
        some storage_error), st)

/-- Outcome surfaced to the caller of a status-transition handler. -/
structure MarkResult where
  success : Bool
  message : String
  warning : Option String := none
  deriving Repr, DecidableEq

/-- Whether an update touched at least one row (`result.data` nonempty). -/
def anyIncident (db : List Incident) (incident_id : String) : Bool :=
  db.any (fun i => i.icd_id == incident_id)

/-- Core of the `/mark_resolved` handler (app.py), after session handling:
require a non-empty summary, check edit permission, record the prior status,
set the incident Resolved, log the admin activity (best effort) and build the
resolution report.  `auditFails` models the activity-log insert raising;
`insert1`/`insert2` model the two report insert attempts. -/
def mark_resolved (st : AppState) (admin_id admin_name incident_id summary_text now : String)
    (auditFails : Bool) (insert1 insert2 : Option String) : MarkResult × AppState :=
  if pyStrip summary_text == "" then
    ({ success := false, message := "Resolution summary is required." }, st)
  else
    let chk := can_admin_edit_incident st.incidents incident_id admin_id
    if ! chk.1 then
      ({ success := false, message := "Permission denied: " ++ chk.2 }, st)
    else
      let incident_label := format_incident_label (some incident_id)
      let old_status := match findIncident st.incidents incident_id with
        | some incident => incident.icd_status
        | none => "Unknown"
      let upd := updateIncidents st.incidents incident_id
        (fun i => { i with icd_status := "Resolved", resolved_timestamp := some now,
                           status_updated_at := some now,
                           status_updated_by := some admin_id })
      let st1 := { st with incidents := upd }
      if anyIncident st.incidents incident_id then
        let st2 := log_admin_activity st1 admin_id admin_name "status_change" incident_id
          (some old_status) (some "Resolved") now auditFails
        let step := create_incident_resolution_report st2 incident_id insert1 insert2
        let summary_payload := step.1.1
        let storage_error := step.1.2
        let success_message :=
          if summary_payload.stored then
            incident_label ++ " has been marked as resolved!" ++ " Resolution summary archived."
          else incident_label ++ " has been marked as resolved!"
        ({ success := true, message := success_message, warning := storage_error }, step.2)
      else
        ({ success := false, message := "Failed to update incident status" }, st1)

/-- Core of the `/mark_pending` handler (app.py): check edit permission, look
up the incident, set it Pending and self-assign the acting admin, log the
admin activity (best effort).  The follow-up chat message to the student is an
external notification that touches none of the modelled tables and whose
failure is caught. -/
def mark_pending (st : AppState) (admin_id admin_name incident_id now : String)
    (auditFails : Bool) : MarkResult × AppState :=
  let chk := can_admin_edit_incident st.incidents incident_id admin_id
  if ! chk.1 then
    ({ success := false, message := "Permission denied: " ++ chk.2 }, st)
  else
    match findIncident st.incidents incident_id with
    | none => ({ success := false, message := "Incident not found" }, st)
    | some incident =>
      let old_status := incident.icd_status
      let upd := updateIncidents st.incidents incident_id
        (fun i => { i with icd_status := "Pending", pending_timestamp := some now,
                           status_updated_at := some now,
                           status_updated_by := some admin_id,
                           assigned_responder_id := some admin_id })
      let st1 := { st with incidents := upd }
      if anyIncident st.incidents incident_id then
        let st2 := log_admin_activity st1 admin_id admin_name "status_change" incident_id
          (some old_status) (some "Pending") now auditFails
        ({ success := true,
           message := "Incident ICD_9100" ++ incident_id ++ " has been set to pending!" }, st2)
      else
        ({ success := false,
           message := "Failed to update incident status - no data returned" }, st1)

/-- Core of the `/mark_cancelled` handler (app.py): check edit permission,
record the prior status (defaulting to `Unknown`), set the incident Cancelled
and log the admin activity (best effort). -/
def mark_cancelled (st : AppState) (admin_id admin_name incident_id now : String)
    (auditFails : Bool) : MarkResult × AppState :=
  let chk := can_admin_edit_incident st.incidents incident_id admin_id
  if ! chk.1 then
    ({ success := false, message := "Permission denied: " ++ chk.2 }, st)
  else
    let old_status := match findIncident st.incidents incident_id with
      | some incident => incident.icd_status
      | none => "Unknown"
    let upd := updateIncidents st.incidents incident_id
      (fun i => { i with icd_status := "Cancelled", cancelled_timestamp := some now,
                         status_updated_at := some now,
                         status_updated_by := some admin_id })
    let st1 := { st with incidents := upd }
    if anyIncident st.incidents incident_id then
      let st2 := log_admin_activity st1 admin_id admin_name "status_change" incident_id
        (some old_status) (some "Cancelled") now auditFails
      ({ success := true,
         message := "Incident ICD_9100" ++ incident_id ++ " has been cancelled!" }, st2)
    else
      ({ success := false, message := "Failed to update incident status" }, st1)

/-- Core of the `/dispatch_team` handler (app.py): the edit-permission check
runs only when the incident is currently assigned to a different admin and the
target responder is not the acting admin; otherwise the incident is set to
Pending and assigned to `responder_id` regardless of its current status. -/
def dispatch_team (st : AppState) (admin_id admin_name incident_id responder_id now : String)
    (auditFails : Bool) : MarkResult × AppState :=
  if incident_id == "" || responder_id == "" then
    ({ success := false, message := "Error: Missing incident ID or responder ID" }, st)
  else
    match findIncident st.incidents incident_id with
    | none => ({ success := false, message := "Incident not found" }, st)
    | some incident =>
      let current_assigned := incident.assigned_responder_id
      let denied :=
        pyTruthy current_assigned && (current_assigned.getD "" != admin_id)
          && (responder_id != admin_id)
          && ! (can_admin_edit_incident st.incidents incident_id admin_id).1
      if denied then
        ({ success := false, message := "Permission denied: " ++
            (can_admin_edit_incident st.incidents incident_id admin_id).2 }, st)
      else
        let old_status := incident.icd_status
        let upd := updateIncidents st.incidents incident_id
          (fun i => { i with icd_status := "Pending", pending_timestamp := some now,
                             assigned_responder_id := some responder_id })
        let st1 := { st with incidents := upd }
        if anyIncident st.incidents incident_id then
          let st2 := log_admin_activity st1 admin_id admin_name "dispatch_team" incident_id
            (some old_status) (some "Pending") now auditFails
          ({ success := true,
             message := "Responder assigned and incident set to pending successfully!" }, st2)
        else
          ({ success := false, message := "Error assigning responder" }, st1)

/-- Result row for one incident in the bulk `status_update` loop. -/
structure BulkItemResult where
  incident_id : String
  success : Bool
  message : String
  deriving Repr, DecidableEq

/-- One iteration of the `status_update` loop in `api_bulk_action` (app.py):
check edit permission, set the new status, null all three per-status
timestamps, set the one matching the target status, and append an
audit-trail row (best effort) that carries no old status. -/
def bulk_status_update_one (st : AppState) (admin_id incident_id new_status current_time : String)
    (auditFails : Bool) : BulkItemResult × AppState :=
  let chk := can_admin_edit_incident st.incidents incident_id admin_id
  if ! chk.1 then
    ({ incident_id := incident_id, success := false,
       message := "Permission denied: " ++ chk.2 }, st)
  else
    let upd := updateIncidents st.incidents incident_id
      (fun i =>
        let base := { i with icd_status := new_status,
                             status_updated_at := some current_time,
                             status_updated_by := some admin_id,
                             resolved_timestamp := none,
                             pending_timestamp := none,
                             cancelled_timestamp := none }
        if new_status == "Resolved" then { base with resolved_timestamp := some current_time }
        else if new_status == "Pending" then { base with pending_timestamp := some current_time }
        else if new_status == "Cancelled" then
          { base with cancelled_timestamp := some current_time }
        else base)
    let st1 := { st with incidents := upd }
    let step := log_incident_change st1 incident_id "status_updated" none (some new_status)
      (some admin_id) none auditFails
    ({ incident_id := incident_id, success := true, message := "Status updated successfully" },
      step.2)

/-- Embeds `archive_incident` (app.py): copy the incident into `incident_archive`
(suffixing `_ARCHIVED_<timestamp>` when its id is already archived), delete
its resolution reports (tolerating failure), delete the live row, append an
`archived` audit entry (best effort) and report success with a fixed message.
`ts_token` is the `%Y%m%d%H%M%S` timestamp used for the suffix. -/
def archive_incident (st : AppState) (incident_id admin_id : String) (reason : Option String)
    (ts_token archived_at : String) (deleteReportsFails auditFails : Bool) :
    (Bool × String) × AppState :=
  match findIncident st.incidents incident_id with
  | none => ((false, "Incident not found"), st)
  | some incident =>
    let original_icd_id := incident.icd_id
    let collision := st.incident_archive.any (fun a => a.icd_id == original_icd_id)
    let archive_icd_id :=
      if collision then original_icd_id ++ "_ARCHIVED_" ++ ts_token else original_icd_id
    let archive_data : ArchiveRecord :=
      { icd_id := archive_icd_id, icd_timestamp := incident.icd_timestamp,
        resolved_timestamp := incident.resolved_timestamp,
        pending_timestamp := incident.pending_timestamp,
        cancelled_timestamp := incident.cancelled_timestamp,
        icd_status := incident.icd_status,
        assigned_responder_id := incident.assigned_responder_id,
        status_updated_at := incident.status_updated_at,
        status_updated_by := incident.status_updated_by,
        icd_category := incident.icd_category,
        icd_description := incident.icd_description,
        user_id := incident.user_id,
        archived_by := admin_id,
        archive_reason := if pyTruthy reason then reason.getD "" else "Archived by administrator",
        archived_at := archived_at }
    let st1 := { st with incident_archive := st.incident_archive ++ [archive_data] }
    let st2 := if deleteReportsFails then st1
      else { st1 with resolution_reports :=
        st1.resolution_reports.filter (fun r => r.icd_id != incident_id) }
    let st3 := { st2 with incidents := st2.incidents.filter (fun i => i.icd_id != incident_id) }
    let step := log_incident_change st3 incident_id "archived" (some incident.icd_status) none
      (some admin_id) reason auditFails
    ((true, "Incident archived successfully"), step.2)

/-- A timestamp value as the parsers receive it: absent, unparseable, a naive
wall-clock reading, or a zone-aware reading with a UTC offset.  Readings are
in minutes; an aware reading `m` at offset `o` denotes the UTC instant
`m - o`. -/
inductive TZValue where
  | absent
  | unparseable
  | naive (mins : Int)
  | aware (mins : Int) (offset : Int)
  deriving Repr, DecidableEq

/-- Asia/Manila is UTC+8: 480 minutes. -/
def phOffset : Int := 480

/-- Embeds `_parse_datetime` (app.py), denotationally: the UTC instant of the
returned Philippines-zone datetime.  A naive value is tagged UTC
(`replace(tzinfo=timezone.utc)`) before the `astimezone` conversion, which
preserves the denoted instant; absent or unparseable input gives `None`. -/
def _parse_datetime (v : TZValue) : Option Int :=
  match v with
  | .absent => none
  | .unparseable => none
  | .naive m => some m
  | .aware m o => some (m - o)

/-- The nested `parse_timestamp` helper in `get_recent_activities` (app.py),
denotationally: a naive value is localized with `PHILIPPINES_TZ.localize`,
i.e. read as Philippines wall-clock time, so it denotes the UTC instant
`m - 480`; aware values go through `astimezone`, preserving the instant;
absent or unparseable input gives `None`. -/
def parse_timestamp (v : TZValue) : Option Int :=
  match v with
  | .absent => none
  | .unparseable => none
  | .naive m => some (m - phOffset)
  | .aware m o => some (m - o)

theorem edit_denied_closed (db : List Incident) (incident_id admin_id : String)
    (incident : Incident) (hfind : findIncident db incident_id = some incident)
    (hstatus : incident.icd_status = "Resolved" ∨ incident.icd_status = "Cancelled") :
    (can_admin_edit_incident db incident_id admin_id).1 = false := by
  unfold can_admin_edit_incident
  rw [hfind]
  rcases hstatus with h | h <;> simp [h]

theorem anyIncident_of_find (db : List Incident) (incident_id : String) (incident : Incident)
    (hfind : findIncident db incident_id = some incident) :
    anyIncident db incident_id = true := by
  have hmem := List.mem_of_find?_eq_some hfind
  have hp := List.find?_some hfind
  exact List.any_eq_true.mpr ⟨incident, hmem, hp⟩

theorem icd_id_of_find (db : List Incident) (incident_id : String) (incident : Incident)
    (hfind : findIncident db incident_id = some incident) :
    incident.icd_id = incident_id := by
  have hp := List.find?_some hfind
  exact eq_of_beq hp

theorem findIncident_updateIncidents (db : List Incident) (incident_id : String)
    (f : Incident → Incident) (hf : ∀ i, (f i).icd_id = i.icd_id) :
    findIncident (updateIncidents db incident_id f) incident_id =
      (findIncident db incident_id).map f := by
  induction db with
  | nil => rfl
  | cons a t ih =>
    unfold findIncident updateIncidents at *
    simp only [List.map_cons]
    by_cases h : (a.icd_id == incident_id) = true
    · rw [if_pos h]
      have h2 : ((f a).icd_id == incident_id) = true := by rw [hf a]; exact h
      rw [List.find?_cons, List.find?_cons, h, h2]
      rfl
    · rw [if_neg h]
      have hb : (a.icd_id == incident_id) = false := Bool.eq_false_iff.mpr h
      rw [List.find?_cons, List.find?_cons, hb]
      exact ih

theorem create_report_other_tables (st : AppState) (incident_id : String)
    (insert1 insert2 : Option String) :
    (create_incident_resolution_report st incident_id insert1 insert2).2.activity_logs =
      st.activity_logs ∧
    (create_incident_resolution_report st incident_id insert1 insert2).2.incidents =
      st.incidents ∧
    (create_incident_resolution_report st incident_id insert1 insert2).2.audit_trail =
      st.audit_trail := by
  unfold create_incident_resolution_report
  cases insert1 with
  | none => exact ⟨rfl, rfl, rfl⟩
  | some msg =>
    dsimp only
    by_cases h : isDuplicateError msg = true
    · rw [if_pos h]
      cases insert2 with
      | none => exact ⟨rfl, rfl, rfl⟩
      | some m2 => exact ⟨rfl, rfl, rfl⟩
    · rw [if_neg h]
      exact ⟨rfl, rfl, rfl⟩

/-- C5 counterexample: the claim says every parsing path treats a value
lacking timezone information as UTC, but on the naive reading 0 the shared
normalizer yields the UTC instant 0 while the activity feed's parser yields
-480 (it reads naive values as Philippines wall-clock time), so the two
parsers disagree on the denoted instant. -/
theorem c5_counterexample_naive_not_utc :
    _parse_datetime (.naive 0) = some 0 ∧
    parse_timestamp (.naive 0) = some (-480) ∧
    parse_timestamp (.naive 0) ≠ _parse_datetime (.naive 0) := by
  refine ⟨rfl, by decide, by decide⟩

/-- C5 amended: the shared normalizer `_parse_datetime` treats a naive value
as UTC, while the activity feed's `parse_timestamp` treats it as Philippines
local time (shifting the denoted instant by 480 minutes); both preserve the
instant of zone-aware values, and both are total functions returning `None`
on absent or unparseable input (they never raise). -/
theorem c5_amended_parser_zone_behaviour (m o : Int) :
    _parse_datetime .absent = none ∧ _parse_datetime .unparseable = none ∧
    parse_timestamp .absent = none ∧ parse_timestamp .unparseable = none ∧
    _parse_datetime (.naive m) = some m ∧
    parse_timestamp (.naive m) = some (m - phOffset) ∧
    _parse_datetime (.aware m o) = some (m - o) ∧
    parse_timestamp (.aware m o) = some (m - o) :=
  ⟨rfl, rfl, rfl, rfl, rfl, rfl, rfl, rfl⟩

theorem digit_toUpper {c : Char}
    (h : c ∈ ['0', '1', '2', '3', '4', '5', '6', '7', '8', '9']) : c.toUpper = c := by
  fin_cases h <;> rfl

theorem digit_isDigit {c : Char}
    (h : c ∈ ['0', '1', '2', '3', '4', '5', '6', '7', '8', '9']) : c.isDigit = true := by
  fin_cases h <;> rfl

/-- C6: `generate_resolution_id` returns `RSV00001` when there is no client,
the lookup fails, or no report exists; `RSV00043` after `RSV00042`;
`RSV00001` after a non-numeric suffix; and in general, after a last id of the
form `RSV` followed by digits, `RSV` plus the zero-padded successor of the
digits' value. -/
theorem c6_generate_resolution_id_spec :
    generate_resolution_id .noClient = "RSV00001" ∧
    generate_resolution_id .failure = "RSV00001" ∧
    generate_resolution_id .empty = "RSV00001" ∧
    generate_resolution_id (.lastId "RSV00042") = "RSV00043" ∧
    generate_resolution_id (.lastId "RSVABCDE") = "RSV00001" ∧
    ∀ l : List Char, l ≠ [] →
      (∀ c ∈ l, c ∈ ['0', '1', '2', '3', '4', '5', '6', '7', '8', '9']) →
      generate_resolution_id (.lastId ("RSV" ++ String.mk l)) =
        "RSV" ++ zeroPad 5 (digitsVal l + 1) := by
  refine ⟨by decide, by decide, by decide, by decide, by decide, ?_⟩
  intro l hne hdig
  have hmap : l.map Char.toUpper = l := by
    have h1 : l.map Char.toUpper = l.map id :=
      List.map_congr_left fun c hc => digit_toUpper (hdig c hc)
    rw [h1, List.map_id]
  have hfil : l.filter Char.isDigit = l :=
    List.filter_eq_self.mpr fun c hc => digit_isDigit (hdig c hc)
  have hdata : ("RSV" ++ String.mk l).data = 'R' :: 'S' :: 'V' :: l := rfl
  have hne2 : (("RSV" ++ String.mk l) != "") = true := by
    rw [bne_iff_ne, ne_eq, String.ext_iff, hdata]
    simp
  have hlne : (l != []) = true := by rw [bne_iff_ne]; exact hne
  unfold generate_resolution_id pyUpper
  dsimp only
  rw [hdata]
  simp only [List.map_cons, hmap]
  rw [show Char.toUpper 'R' = 'R' from rfl, show Char.toUpper 'S' = 'S' from rfl,
    show Char.toUpper 'V' = 'V' from rfl]
  rw [hne2]
  rw [show ∀ m : List Char, ('R' :: 'S' :: 'V' :: m).take 3 = ['R', 'S', 'V'] from fun m => rfl]
  rw [show ∀ m : List Char, ('R' :: 'S' :: 'V' :: m).drop 3 = m from fun m => rfl]
  simp only [hfil, Bool.true_and, beq_self_eq_true, if_true, hlne]

/-- Closed witness for `c6_generate_resolution_id_spec`: the general digit
case at the digit list of `RSV00042`'s suffix `042`. -/
theorem c6_generate_resolution_id_spec_witness :
    generate_resolution_id (.lastId ("RSV" ++ String.mk ['0', '4', '2'])) =
      "RSV" ++ zeroPad 5 (digitsVal ['0', '4', '2'] + 1) :=
  c6_generate_resolution_id_spec.2.2.2.2.2 ['0', '4', '2'] (by decide) (by decide)

/-- A Resolved incident with no assigned responder. -/
def resolvedUnassigned : Incident :=
  { icd_id := "ICD7", icd_status := "Resolved" }

/-- State holding only `resolvedUnassigned`. -/
def stResolved : AppState := { incidents := [resolvedUnassigned] }

/-- A Resolved incident assigned to admin `A1`. -/
def resolvedAssigned : Incident :=
  { icd_id := "ICD7A", icd_status := "Resolved", assigned_responder_id := some "A1" }

/-- State holding only `resolvedAssigned`. -/
def stResolvedAssigned : AppState := { incidents := [resolvedAssigned] }

/-- C3 counterexample: `dispatch_team` run by admin `A1` on a Resolved,
unassigned incident skips the edit-permission check and succeeds, setting the
incident back to Pending — Resolved is not terminal under normal admin
action. -/
theorem c3_counterexample_dispatch_reopens_resolved :
    resolvedUnassigned.icd_status = "Resolved" ∧
    (dispatch_team stResolved "A1" "Alice" "ICD7" "A2" "t1" false).1.success = true ∧
    findIncident (dispatch_team stResolved "A1" "Alice" "ICD7" "A2" "t1" false).2.incidents
        "ICD7" =
      some ({ resolvedUnassigned with
              icd_status := "Pending",
              pending_timestamp := some "t1",
              assigned_responder_id := some "A2" }) := by
  refine ⟨rfl, by decide, by decide⟩

/-- C3 amended: for an incident whose status is Resolved or Cancelled,
mark_pending, mark_resolved, mark_cancelled and the bulk status_update all
deny the action and leave the state unchanged; dispatch_team also denies it
when the incident is assigned to a different admin and the dispatch target is
not the acting admin — but in the remaining dispatch cases (unassigned,
self-assigned, or dispatching to oneself) the permission check is skipped and
the closed incident is reopened to Pending (see the counterexample). -/
theorem c3_amended_closed_incident_terminality (st : AppState) (incident_id : String)
    (incident : Incident)
    (hfind : findIncident st.incidents incident_id = some incident)
    (hstatus : incident.icd_status = "Resolved" ∨ incident.icd_status = "Cancelled") :
    (∀ admin_id admin_name now auditFails,
      (mark_pending st admin_id admin_name incident_id now auditFails).1.success = false ∧
      (mark_pending st admin_id admin_name incident_id now auditFails).2 = st) ∧
    (∀ admin_id admin_name summary_text now auditFails insert1 insert2,
      (mark_resolved st admin_id admin_name incident_id summary_text now auditFails
        insert1 insert2).1.success = false ∧
      (mark_resolved st admin_id admin_name incident_id summary_text now auditFails
        insert1 insert2).2 = st) ∧
    (∀ admin_id admin_name now auditFails,
      (mark_cancelled st admin_id admin_name incident_id now auditFails).1.success = false ∧
      (mark_cancelled st admin_id admin_name incident_id now auditFails).2 = st) ∧
    (∀ admin_id new_status current_time auditFails,
      (bulk_status_update_one st admin_id incident_id new_status current_time
        auditFails).1.success = false ∧
      (bulk_status_update_one st admin_id incident_id new_status current_time
        auditFails).2 = st) ∧
    (∀ admin_id admin_name responder_id now auditFails,
      pyTruthy incident.assigned_responder_id = true →
      incident.assigned_responder_id.getD "" ≠ admin_id →
      responder_id ≠ admin_id →
      (dispatch_team st admin_id admin_name incident_id responder_id now
        auditFails).1.success = false ∧
      (dispatch_team st admin_id admin_name incident_id responder_id now
        auditFails).2 = st) := by
  refine ⟨?_, ?_, ?_, ?_, ?_⟩
  · intro admin_id admin_name now auditFails
    have hd := edit_denied_closed st.incidents incident_id admin_id incident hfind hstatus
    simp [mark_pending, hd]
  · intro admin_id admin_name summary_text now auditFails insert1 insert2
    have hd := edit_denied_closed st.incidents incident_id admin_id incident hfind hstatus
    by_cases hs : (pyStrip summary_text == "") = true
    · simp [mark_resolved, hs]
    · simp [mark_resolved, hs, hd]
  · intro admin_id admin_name now auditFails
    have hd := edit_denied_closed st.incidents incident_id admin_id incident hfind hstatus
    simp [mark_cancelled, hd]
  · intro admin_id new_status current_time auditFails
    have hd := edit_denied_closed st.incidents incident_id admin_id incident hfind hstatus
    simp [bulk_status_update_one, hd]
  · intro admin_id admin_name responder_id now auditFails h1 h2 h3
    have hd := edit_denied_closed st.incidents incident_id admin_id incident hfind hstatus
    by_cases h0 : (incident_id == "" || responder_id == "") = true
    · simp [dispatch_team, h0]
    · have hb2 : (incident.assigned_responder_id.getD "" != admin_id) = true :=
        bne_iff_ne.mpr h2
      have hb3 : (responder_id != admin_id) = true := bne_iff_ne.mpr h3
      simp [dispatch_team, h0, hfind, h1, hb2, hb3, hd]

/-- Closed witness for `c3_amended_closed_incident_terminality`: admin `B2`
can neither mark the Resolved incident (assigned to `A1`) pending nor
dispatch it to a third responder. -/
theorem c3_amended_closed_incident_terminality_witness :
    ((mark_pending stResolvedAssigned "B2" "Bob" "ICD7A" "t1" false).1.success = false ∧
      (mark_pending stResolvedAssigned "B2" "Bob" "ICD7A" "t1" false).2 =
        stResolvedAssigned) ∧
    ((dispatch_team stResolvedAssigned "B2" "Bob" "ICD7A" "B3" "t1" false).1.success = false ∧
      (dispatch_team stResolvedAssigned "B2" "Bob" "ICD7A" "B3" "t1" false).2 =
        stResolvedAssigned) :=
  ⟨(c3_amended_closed_incident_terminality stResolvedAssigned "ICD7A" resolvedAssigned
      (by decide) (Or.inl rfl)).1 "B2" "Bob" "t1" false,
   (c3_amended_closed_incident_terminality stResolvedAssigned "ICD7A" resolvedAssigned
      (by decide) (Or.inl rfl)).2.2.2.2 "B2" "Bob" "B3" "t1" false (by decide) (by decide)
      (by decide)⟩

theorem log_admin_activity_incidents (st : AppState) (a an act iid : String)
    (old new : Option String) (now : String) (fails : Bool) :
    (log_admin_activity st a an act iid old new now fails).incidents = st.incidents := by
  cases fails <;> simp [log_admin_activity]

theorem log_admin_activity_audit (st : AppState) (a an act iid : String)
    (old new : Option String) (now : String) (fails : Bool) :
    (log_admin_activity st a an act iid old new now fails).audit_trail = st.audit_trail := by
  cases fails <;> simp [log_admin_activity]

theorem log_admin_activity_reports (st : AppState) (a an act iid : String)
    (old new : Option String) (now : String) (fails : Bool) :
    (log_admin_activity st a an act iid old new now fails).resolution_reports =
      st.resolution_reports := by
  cases fails <;> simp [log_admin_activity]

theorem log_incident_change_incidents (st : AppState) (iid act : String)
    (old new adm reason : Option String) (fails : Bool) :
    (log_incident_change st iid act old new adm reason fails).2.incidents =
      st.incidents := by
  cases fails <;> simp [log_incident_change]

theorem log_incident_change_activity (st : AppState) (iid act : String)
    (old new adm reason : Option String) (fails : Bool) :
    (log_incident_change st iid act old new adm reason fails).2.activity_logs =
      st.activity_logs := by
  cases fails <;> simp [log_incident_change]

theorem log_incident_change_archive (st : AppState) (iid act : String)
    (old new adm reason : Option String) (fails : Bool) :
    (log_incident_change st iid act old new adm reason fails).2.incident_archive =
      st.incident_archive := by
  cases fails <;> simp [log_incident_change]

theorem create_report_incidents (st : AppState) (incident_id : String)
    (insert1 insert2 : Option String) :
    (create_incident_resolution_report st incident_id insert1 insert2).2.incidents =
      st.incidents :=
  (create_report_other_tables st incident_id insert1 insert2).2.1

theorem create_report_activity_logs (st : AppState) (incident_id : String)
    (insert1 insert2 : Option String) :
    (create_incident_resolution_report st incident_id insert1 insert2).2.activity_logs =
      st.activity_logs :=
  (create_report_other_tables st incident_id insert1 insert2).1

/-- An Active incident with no assigned responder. -/
def activeUnassigned : Incident := { icd_id := "ICD8", icd_status := "Active" }

/-- State holding only `activeUnassigned`. -/
def stActive : AppState := { incidents := [activeUnassigned] }

/-- C4 counterexample: a successful bulk status_update on the Active incident
appends an audit-trail entry whose `old_status` is `None` even though the
incident's prior status was Active — the bulk path's audit entry does not
carry the old status. -/
theorem c4_counterexample_bulk_audit_lacks_old_status :
    activeUnassigned.icd_status = "Active" ∧
    (bulk_status_update_one stActive "A1" "ICD8" "Resolved" "t1" false).1.success = true ∧
    (bulk_status_update_one stActive "A1" "ICD8" "Resolved" "t1" false).2.audit_trail =
      [{ icd_id := "ICD8",
         action_type := "status_updated",
         old_status := none,
         new_status := some "Resolved",
         changed_by := some "A1",
         change_reason := none }] ∧
    (none : Option String) ≠ some activeUnassigned.icd_status := by
  refine ⟨rfl, by decide, by decide, by decide⟩

/-- C4 amended: every successful single-action transition (mark_pending,
mark_resolved, mark_cancelled, dispatch_team) appends an activity-log entry
carrying the old status, the new status and the acting admin, while the bulk
status_update appends an audit-trail entry carrying the new status and the
acting admin but `None` in place of the old status; for every action the
status change itself succeeds and is persisted even when the audit append
fails (audit logging is best effort, never rolled back). -/
theorem c4_amended_audit_logging (st : AppState)
    (admin_id admin_name incident_id summary_text : String) (incident : Incident)
    (hfind : findIncident st.incidents incident_id = some incident)
    (hedit : (can_admin_edit_incident st.incidents incident_id admin_id).1 = true)
    (hsummary : pyStrip summary_text ≠ "")
    (hiid : incident_id ≠ "") :
    (∀ now auditFails,
      (mark_pending st admin_id admin_name incident_id now auditFails).1.success = true ∧
      (mark_pending st admin_id admin_name incident_id now auditFails).2.incidents =
        updateIncidents st.incidents incident_id (fun i =>
          { i with
            icd_status := "Pending",
            pending_timestamp := some now,
            status_updated_at := some now,
            status_updated_by := some admin_id,
            assigned_responder_id := some admin_id }) ∧
      (mark_pending st admin_id admin_name incident_id now false).2.activity_logs =
        st.activity_logs ++
          [{ admin_id := admin_id,
             admin_name := admin_name,
             action_type := "status_change",
             incident_id := incident_id,
             old_status := some incident.icd_status,
             new_status := some "Pending",
             action_timestamp := now }]) ∧
    (∀ now auditFails insert1 insert2,
      (mark_resolved st admin_id admin_name incident_id summary_text now auditFails
        insert1 insert2).1.success = true ∧
      (mark_resolved st admin_id admin_name incident_id summary_text now auditFails
        insert1 insert2).2.incidents =
        updateIncidents st.incidents incident_id (fun i =>
          { i with
            icd_status := "Resolved",
            resolved_timestamp := some now,
            status_updated_at := some now,
            status_updated_by := some admin_id }) ∧
      (mark_resolved st admin_id admin_name incident_id summary_text now false
        insert1 insert2).2.activity_logs =
        st.activity_logs ++
          [{ admin_id := admin_id,
             admin_name := admin_name,
             action_type := "status_change",
             incident_id := incident_id,
             old_status := some incident.icd_status,
             new_status := some "Resolved",
             action_timestamp := now }]) ∧
    (∀ now auditFails,
      (mark_cancelled st admin_id admin_name incident_id now auditFails).1.success = true ∧
      (mark_cancelled st admin_id admin_name incident_id now auditFails).2.incidents =
        updateIncidents st.incidents incident_id (fun i =>
          { i with
            icd_status := "Cancelled",
            cancelled_timestamp := some now,
            status_updated_at := some now,
            status_updated_by := some admin_id }) ∧
      (mark_cancelled st admin_id admin_name incident_id now false).2.activity_logs =
        st.activity_logs ++
          [{ admin_id := admin_id,
             admin_name := admin_name,
             action_type := "status_change",
             incident_id := incident_id,
             old_status := some incident.icd_status,
             new_status := some "Cancelled",
             action_timestamp := now }]) ∧
    (∀ responder_id now auditFails, responder_id ≠ "" →
      (dispatch_team st admin_id admin_name incident_id responder_id now
        auditFails).1.success = true ∧
      (dispatch_team st admin_id admin_name incident_id responder_id now
        auditFails).2.incidents =
        updateIncidents st.incidents incident_id (fun i =>
          { i with
            icd_status := "Pending",
            pending_timestamp := some now,
            assigned_responder_id := some responder_id }) ∧
      (dispatch_team st admin_id admin_name incident_id responder_id now
        false).2.activity_logs =
        st.activity_logs ++
          [{ admin_id := admin_id,
             admin_name := admin_name,
             action_type := "dispatch_team",
             incident_id := incident_id,
             old_status := some incident.icd_status,
             new_status := some "Pending",
             action_timestamp := now }]) ∧
    (∀ new_status current_time auditFails,
      (bulk_status_update_one st admin_id incident_id new_status current_time
        auditFails).1.success = true ∧
      (bulk_status_update_one st admin_id incident_id new_status current_time
        auditFails).2.incidents =
        updateIncidents st.incidents incident_id (fun i =>
          let base := { i with
                        icd_status := new_status,
                        status_updated_at := some current_time,
                        status_updated_by := some admin_id,
                        resolved_timestamp := none,
                        pending_timestamp := none,
                        cancelled_timestamp := none }
          if new_status == "Resolved" then
            { base with resolved_timestamp := some current_time }
          else if new_status == "Pending" then
            { base with pending_timestamp := some current_time }
          else if new_status == "Cancelled" then
            { base with cancelled_timestamp := some current_time }
          else base) ∧
      (bulk_status_update_one st admin_id incident_id new_status current_time
        false).2.audit_trail =
        st.audit_trail ++
          [{ icd_id := incident_id,
             action_type := "status_updated",
             old_status := none,
             new_status := some new_status,
             changed_by := some admin_id,
             change_reason := none }]) := by
  have hany := anyIncident_of_find st.incidents incident_id incident hfind
  have hs : (pyStrip summary_text == "") = false := beq_eq_false_iff_ne.mpr hsummary
  have hi : (incident_id == "") = false := beq_eq_false_iff_ne.mpr hiid
  refine ⟨?_, ?_, ?_, ?_, ?_⟩
  · intro now auditFails
    cases auditFails <;> refine ⟨?_, ?_, ?_⟩ <;>
      simp [mark_pending, hfind, hedit, hany, log_admin_activity_incidents,
        log_admin_activity]
  · intro now auditFails insert1 insert2
    cases auditFails <;> refine ⟨?_, ?_, ?_⟩ <;>
      simp [mark_resolved, hs, hfind, hedit, hany, create_report_incidents,
        create_report_activity_logs, log_admin_activity_incidents, log_admin_activity]
  · intro now auditFails
    cases auditFails <;> refine ⟨?_, ?_, ?_⟩ <;>
      simp [mark_cancelled, hfind, hedit, hany, log_admin_activity_incidents,
        log_admin_activity]
  · intro responder_id now auditFails hrne
    have hr : (responder_id == "") = false := beq_eq_false_iff_ne.mpr hrne
    cases auditFails <;> refine ⟨?_, ?_, ?_⟩ <;>
      simp [dispatch_team, hi, hr, hfind, hedit, hany, log_admin_activity_incidents,
        log_admin_activity]
  · intro new_status current_time auditFails
    cases auditFails <;> refine ⟨?_, ?_, ?_⟩ <;>
      simp [bulk_status_update_one, hedit, log_incident_change_incidents,
        log_incident_change]

/-- Closed witness for `c4_amended_audit_logging`: resolving the Active
incident appends the expected activity-log entry. -/
theorem c4_amended_audit_logging_witness :
    (mark_resolved stActive "A1" "Alice" "ICD8" "done" "t1" false none none).1.success =
      true ∧
    (mark_resolved stActive "A1" "Alice" "ICD8" "done" "t1" false none
      none).2.incidents =
      updateIncidents stActive.incidents "ICD8" (fun i =>
        { i with
          icd_status := "Resolved",
          resolved_timestamp := some "t1",
          status_updated_at := some "t1",
          status_updated_by := some "A1" }) ∧
    (mark_resolved stActive "A1" "Alice" "ICD8" "done" "t1" false none
      none).2.activity_logs =
      stActive.activity_logs ++
        [{ admin_id := "A1",
           admin_name := "Alice",
           action_type := "status_change",
           incident_id := "ICD8",
           old_status := some activeUnassigned.icd_status,
           new_status := some "Resolved",
           action_timestamp := "t1" }] :=
  (c4_amended_audit_logging stActive "A1" "Alice" "ICD8" "done" activeUnassigned
      (by decide) (by decide) (by decide) (by decide)).2.1 "t1" false none none

theorem findIncident_after (db : List Incident) (incident_id : String)
    (incident : Incident) (f : Incident → Incident)
    (hfind : findIncident db incident_id = some incident)
    (hf : ∀ i, (f i).icd_id = i.icd_id) :
    findIncident (updateIncidents db incident_id f) incident_id = some (f incident) := by
  rw [findIncident_updateIncidents db incident_id f hf, hfind]
  rfl

/-- An Active incident carrying stale sibling timestamps from earlier
transitions, to make frame effects observable. -/
def activeWithStamps : Incident :=
  { icd_id := "ICD10", icd_status := "Active", pending_timestamp := some "p0",
    resolved_timestamp := some "r0", cancelled_timestamp := some "c0" }

/-- State holding only `activeWithStamps`. -/
def stStamps : AppState := { incidents := [activeWithStamps] }

/-- C8: the bulk status_update nulls the sibling status-timestamp fields
before setting the one of the target status, while mark_resolved,
mark_pending and mark_cancelled set only their own status timestamp and leave
the sibling timestamp fields unchanged (the updated row keeps the original
incident's sibling values). -/
theorem c8_timestamp_reset_vs_frame (st : AppState)
    (admin_id admin_name incident_id summary_text : String) (incident : Incident)
    (hfind : findIncident st.incidents incident_id = some incident)
    (hedit : (can_admin_edit_incident st.incidents incident_id admin_id).1 = true)
    (hsummary : pyStrip summary_text ≠ "") :
    (∀ current_time auditFails,
      findIncident (bulk_status_update_one st admin_id incident_id "Resolved"
          current_time auditFails).2.incidents incident_id =
        some ({ incident with
                icd_status := "Resolved",
                status_updated_at := some current_time,
                status_updated_by := some admin_id,
                resolved_timestamp := some current_time,
                pending_timestamp := none,
                cancelled_timestamp := none })) ∧
    (∀ current_time auditFails,
      findIncident (bulk_status_update_one st admin_id incident_id "Pending"
          current_time auditFails).2.incidents incident_id =
        some ({ incident with
                icd_status := "Pending",
                status_updated_at := some current_time,
                status_updated_by := some admin_id,
                resolved_timestamp := none,
                pending_timestamp := some current_time,
                cancelled_timestamp := none })) ∧
    (∀ current_time auditFails,
      findIncident (bulk_status_update_one st admin_id incident_id "Cancelled"
          current_time auditFails).2.incidents incident_id =
        some ({ incident with
                icd_status := "Cancelled",
                status_updated_at := some current_time,
                status_updated_by := some admin_id,
                resolved_timestamp := none,
                pending_timestamp := none,
                cancelled_timestamp := some current_time })) ∧
    (∀ now auditFails insert1 insert2,
      findIncident (mark_resolved st admin_id admin_name incident_id summary_text now
          auditFails insert1 insert2).2.incidents incident_id =
        some ({ incident with
                icd_status := "Resolved",
                resolved_timestamp := some now,
                status_updated_at := some now,
                status_updated_by := some admin_id })) ∧
    (∀ now auditFails,
      findIncident (mark_pending st admin_id admin_name incident_id now
          auditFails).2.incidents incident_id =
        some ({ incident with
                icd_status := "Pending",
                pending_timestamp := some now,
                status_updated_at := some now,
                status_updated_by := some admin_id,
                assigned_responder_id := some admin_id })) ∧
    (∀ now auditFails,
      findIncident (mark_cancelled st admin_id admin_name incident_id now
          auditFails).2.incidents incident_id =
        some ({ incident with
                icd_status := "Cancelled",
                cancelled_timestamp := some now,
                status_updated_at := some now,
                status_updated_by := some admin_id })) := by
  have hany := anyIncident_of_find st.incidents incident_id incident hfind
  have hs : (pyStrip summary_text == "") = false := beq_eq_false_iff_ne.mpr hsummary
  refine ⟨?_, ?_, ?_, ?_, ?_, ?_⟩
  · intro current_time auditFails
    have hupd : (bulk_status_update_one st admin_id incident_id "Resolved" current_time
        auditFails).2.incidents =
        updateIncidents st.incidents incident_id (fun i =>
          { i with
            icd_status := "Resolved",
            status_updated_at := some current_time,
            status_updated_by := some admin_id,
            resolved_timestamp := some current_time,
            pending_timestamp := none,
            cancelled_timestamp := none }) := by
      cases auditFails <;>
        simp [bulk_status_update_one, hedit, log_incident_change_incidents,
          log_incident_change]
    rw [hupd]
    exact findIncident_after st.incidents incident_id incident _ hfind (fun i => rfl)
  · intro current_time auditFails
    have hupd : (bulk_status_update_one st admin_id incident_id "Pending" current_time
        auditFails).2.incidents =
        updateIncidents st.incidents incident_id (fun i =>
          { i with
            icd_status := "Pending",
            status_updated_at := some current_time,
            status_updated_by := some admin_id,
            resolved_timestamp := none,
            pending_timestamp := some current_time,
            cancelled_timestamp := none }) := by
      cases auditFails <;>
        simp [bulk_status_update_one, hedit, log_incident_change_incidents,
          log_incident_change]
    rw [hupd]
    exact findIncident_after st.incidents incident_id incident _ hfind (fun i => rfl)
  · intro current_time auditFails
    have hupd : (bulk_status_update_one st admin_id incident_id "Cancelled" current_time
        auditFails).2.incidents =
        updateIncidents st.incidents incident_id (fun i =>
          { i with
            icd_status := "Cancelled",
            status_updated_at := some current_time,
            status_updated_by := some admin_id,
            resolved_timestamp := none,
            pending_timestamp := none,
            cancelled_timestamp := some current_time }) := by
      cases auditFails <;>
        simp [bulk_status_update_one, hedit, log_incident_change_incidents,
          log_incident_change]
    rw [hupd]
    exact findIncident_after st.incidents incident_id incident _ hfind (fun i => rfl)
  · intro now auditFails insert1 insert2
    have hupd : (mark_resolved st admin_id admin_name incident_id summary_text now
        auditFails insert1 insert2).2.incidents =
        updateIncidents st.incidents incident_id (fun i =>
          { i with
            icd_status := "Resolved",
            resolved_timestamp := some now,
            status_updated_at := some now,
            status_updated_by := some admin_id }) := by
      cases auditFails <;>
        simp [mark_resolved, hs, hfind, hedit, hany, create_report_incidents,
          log_admin_activity_incidents]
    rw [hupd]
    exact findIncident_after st.incidents incident_id incident _ hfind (fun i => rfl)
  · intro now auditFails
    have hupd : (mark_pending st admin_id admin_name incident_id now
        auditFails).2.incidents =
        updateIncidents st.incidents incident_id (fun i =>
          { i with
            icd_status := "Pending",
            pending_timestamp := some now,
            status_updated_at := some now,
            status_updated_by := some admin_id,
            assigned_responder_id := some admin_id }) := by
      cases auditFails <;>
        simp [mark_pending, hfind, hedit, hany, log_admin_activity_incidents]
    rw [hupd]
    exact findIncident_after st.incidents incident_id incident _ hfind (fun i => rfl)
  · intro now auditFails
    have hupd : (mark_cancelled st admin_id admin_name incident_id now
        auditFails).2.incidents =
        updateIncidents st.incidents incident_id (fun i =>
          { i with
            icd_status := "Cancelled",
            cancelled_timestamp := some now,
            status_updated_at := some now,
            status_updated_by := some admin_id }) := by
      cases auditFails <;>
        simp [mark_cancelled, hfind, hedit, hany, log_admin_activity_incidents]
    rw [hupd]
    exact findIncident_after st.incidents incident_id incident _ hfind (fun i => rfl)

/-- Closed witness for `c8_timestamp_reset_vs_frame`: resolving the incident
with stale sibling timestamps keeps `pending_timestamp = some "p0"` and
`cancelled_timestamp = some "c0"`, while the bulk path nulls them. -/
theorem c8_timestamp_reset_vs_frame_witness :
    findIncident (mark_resolved stStamps "A1" "Alice" "ICD10" "done" "t1" false none
        none).2.incidents "ICD10" =
      some ({ activeWithStamps with
              icd_status := "Resolved",
              resolved_timestamp := some "t1",
              status_updated_at := some "t1",
              status_updated_by := some "A1" }) ∧
    findIncident (bulk_status_update_one stStamps "A1" "ICD10" "Resolved" "t1"
        false).2.incidents "ICD10" =
      some ({ activeWithStamps with
              icd_status := "Resolved",
              status_updated_at := some "t1",
              status_updated_by := some "A1",
              resolved_timestamp := some "t1",
              pending_timestamp := none,
              cancelled_timestamp := none }) :=
  ⟨(c8_timestamp_reset_vs_frame stStamps "A1" "Alice" "ICD10" "done" activeWithStamps
      (by decide) (by decide) (by decide)).2.2.2.1 "t1" false none none,
   (c8_timestamp_reset_vs_frame stStamps "A1" "Alice" "ICD10" "done" activeWithStamps
      (by decide) (by decide) (by decide)).1 "t1" false⟩

/-- The error message used in the C7 counterexample: a unique-constraint
violation that does not name the resolved-id column. -/
def otherDupMsg : String :=
  "duplicate key value violates unique constraint idx_reports_icd"

/-- C7 counterexample: the claim restricts the regenerate-and-retry path to
unique-constraint violations naming the resolved-id and requires every other
storage failure to come back as a warning string; but on a duplicate-key
message that does not name resolved_id the code still retries, and when that
retry succeeds no warning is returned at all. -/
theorem c7_counterexample_retry_trigger :
    containsSub (pyLower otherDupMsg) "resolved_id" = false ∧
    isDuplicateError otherDupMsg = true ∧
    (create_incident_resolution_report { incidents := [] } "9" (some otherDupMsg)
        none).1.2 = none ∧
    (create_incident_resolution_report { incidents := [] } "9" (some otherDupMsg)
        none).1.1.stored = true := by
  refine ⟨by decide, by decide, by decide, by decide⟩

/-- C7 amended: on insert success the report is stored with no warning; the
id is regenerated once and the insert retried whenever the first insert's
error message contains the duplicate-key phrase or names resolved_id (not
only on duplicate-key violations naming the resolved-id); a successful retry
yields no warning, a failed retry surfaces the retry error as the warning,
and a failure not matching the retry condition is surfaced directly as the
warning with no retry; in the warning cases mark_resolved still reports
success for the resolution itself, carrying the warning alongside. -/
theorem c7_amended_report_persistence (st : AppState) (incident_id : String)
    (msg retry_error : String) :
    ((create_incident_resolution_report st incident_id none none).1.1.stored = true ∧
      (create_incident_resolution_report st incident_id none none).1.2 = none ∧
      (create_incident_resolution_report st incident_id none none).2.resolution_reports =
        st.resolution_reports ++
          [{ resolved_id := generate_resolution_id (reportLookup st.resolution_reports),
             icd_id := incident_id }]) ∧
    (isDuplicateError msg = true →
      (create_incident_resolution_report st incident_id (some msg) none).1.1.stored =
        true ∧
      (create_incident_resolution_report st incident_id (some msg) none).1.2 = none ∧
      (create_incident_resolution_report st incident_id (some msg)
          none).2.resolution_reports =
        st.resolution_reports ++
          [{ resolved_id := generate_resolution_id (reportLookup st.resolution_reports),
             icd_id := incident_id }]) ∧
    (isDuplicateError msg = true →
      (create_incident_resolution_report st incident_id (some msg)
          (some retry_error)).1.1.stored = false ∧
      (create_incident_resolution_report st incident_id (some msg)
          (some retry_error)).1.2 = some retry_error ∧
      (create_incident_resolution_report st incident_id (some msg)
          (some retry_error)).2.resolution_reports = st.resolution_reports) ∧
    (isDuplicateError msg = false → ∀ insert2,
      (create_incident_resolution_report st incident_id (some msg) insert2).1.1.stored =
        false ∧
      (create_incident_resolution_report st incident_id (some msg) insert2).1.2 =
        some msg ∧
      (create_incident_resolution_report st incident_id (some msg)
          insert2).2.resolution_reports = st.resolution_reports) ∧
    (∀ admin_id admin_name summary_text now incident,
      findIncident st.incidents incident_id = some incident →
      (can_admin_edit_incident st.incidents incident_id admin_id).1 = true →
      pyStrip summary_text ≠ "" →
      isDuplicateError msg = false →
      (mark_resolved st admin_id admin_name incident_id summary_text now false
        (some msg) none).1.success = true ∧
      (mark_resolved st admin_id admin_name incident_id summary_text now false
        (some msg) none).1.warning = some msg ∧
      findIncident (mark_resolved st admin_id admin_name incident_id summary_text now
          false (some msg) none).2.incidents incident_id =
        some ({ incident with
                icd_status := "Resolved",
                resolved_timestamp := some now,
                status_updated_at := some now,
                status_updated_by := some admin_id })) := by
  refine ⟨?_, ?_, ?_, ?_, ?_⟩
  · exact ⟨rfl, rfl, rfl⟩
  · intro h
    refine ⟨?_, ?_, ?_⟩ <;> simp [create_incident_resolution_report, h]
  · intro h
    refine ⟨?_, ?_, ?_⟩ <;> simp [create_incident_resolution_report, h]
  · intro h insert2
    refine ⟨?_, ?_, ?_⟩ <;> simp [create_incident_resolution_report, h]
  · intro admin_id admin_name summary_text now incident hfind he hsum hdup
    have hany := anyIncident_of_find st.incidents incident_id incident hfind
    have hs : (pyStrip summary_text == "") = false := beq_eq_false_iff_ne.mpr hsum
    refine ⟨?_, ?_, ?_⟩
    · simp [mark_resolved, hs, he, hany]
    · simp [mark_resolved, hs, he, hany, create_incident_resolution_report, hdup]
    · have hupd : (mark_resolved st admin_id admin_name incident_id summary_text now
          false (some msg) none).2.incidents =
          updateIncidents st.incidents incident_id (fun i =>
            { i with
              icd_status := "Resolved",
              resolved_timestamp := some now,
              status_updated_at := some now,
              status_updated_by := some admin_id }) := by
        simp [mark_resolved, hs, he, hany, create_report_incidents,
          log_admin_activity_incidents]
      rw [hupd]
      exact findIncident_after st.incidents incident_id incident _ hfind (fun i => rfl)

/-- Closed witness for `c7_amended_report_persistence`: a non-retryable
storage failure is surfaced as the warning and the report is not stored. -/
theorem c7_amended_report_persistence_witness :
    (create_incident_resolution_report { incidents := [] } "9" (some "disk full")
        none).1.1.stored = false ∧
    (create_incident_resolution_report { incidents := [] } "9" (some "disk full")
        none).1.2 = some "disk full" ∧
    (create_incident_resolution_report { incidents := [] } "9" (some "disk full")
        none).2.resolution_reports =
      ({ incidents := [] } : AppState).resolution_reports :=
  (c7_amended_report_persistence { incidents := [] } "9" "disk full" "x").2.2.2.1
    (by decide) none

/-- Live incident used in the C9 scenario. -/
def liveNine : Incident := { icd_id := "ICD9", icd_status := "Resolved" }

/-- Archive row already occupying id `ICD9`. -/
def archivedNine : ArchiveRecord :=
  { icd_id := "ICD9", icd_status := "Active", archived_by := "A0",
    archive_reason := "earlier run", archived_at := "t0" }

/-- State with an archive-id collision for `ICD9`. -/
def stCollision : AppState :=
  { incidents := [liveNine], incident_archive := [archivedNine] }

/-- State archiving `ICD9` with no collision. -/
def stNoCollision : AppState := { incidents := [liveNine] }

/-- C9 counterexample: archiving with an id collision and without one returns
the same fixed success message, which mentions neither the remap marker nor
the timestamped id — so the message does not state whether the id was
remapped (the remap is only printed to the server console). -/
theorem c9_counterexample_message_silent_on_remap :
    (archive_incident stCollision "ICD9" "A1" none "20240101000000" "t1" false
        false).1 = (true, "Incident archived successfully") ∧
    (archive_incident stNoCollision "ICD9" "A1" none "20240101000000" "t1" false
        false).1 = (true, "Incident archived successfully") ∧
    containsSub "Incident archived successfully" "_ARCHIVED_" = false ∧
    containsSub "Incident archived successfully" "20240101000000" = false := by
  refine ⟨by decide, by decide, by decide, by decide⟩

/-- C9 amended: archiving an incident whose id already exists in the archive
table stores the archive copy under `<original>_ARCHIVED_<timestamp>` and
still deletes the original live incident row, but the success message
returned to the caller is the fixed string "Incident archived successfully"
regardless of whether the id was remapped. -/
theorem c9_amended_archive_collision (st : AppState) (incident_id admin_id : String)
    (reason : Option String) (ts_token archived_at : String)
    (deleteReportsFails auditFails : Bool) (incident : Incident)
    (hfind : findIncident st.incidents incident_id = some incident)
    (hcol : st.incident_archive.any (fun a => a.icd_id == incident_id) = true) :
    (archive_incident st incident_id admin_id reason ts_token archived_at
      deleteReportsFails auditFails).1 = (true, "Incident archived successfully") ∧
    (archive_incident st incident_id admin_id reason ts_token archived_at
        deleteReportsFails auditFails).2.incident_archive =
      st.incident_archive ++
        [{ icd_id := incident_id ++ "_ARCHIVED_" ++ ts_token,
           icd_timestamp := incident.icd_timestamp,
           resolved_timestamp := incident.resolved_timestamp,
           pending_timestamp := incident.pending_timestamp,
           cancelled_timestamp := incident.cancelled_timestamp,
           icd_status := incident.icd_status,
           assigned_responder_id := incident.assigned_responder_id,
           status_updated_at := incident.status_updated_at,
           status_updated_by := incident.status_updated_by,
           icd_category := incident.icd_category,
           icd_description := incident.icd_description,
           user_id := incident.user_id,
           archived_by := admin_id,
           archive_reason :=
             if pyTruthy reason then reason.getD "" else "Archived by administrator",
           archived_at := archived_at }] ∧
    (archive_incident st incident_id admin_id reason ts_token archived_at
        deleteReportsFails auditFails).2.incidents =
      st.incidents.filter (fun i => i.icd_id != incident_id) := by
  have hid := icd_id_of_find st.incidents incident_id incident hfind
  refine ⟨?_, ?_, ?_⟩ <;>
    cases deleteReportsFails <;> cases auditFails <;>
      simp [archive_incident, hfind, hid, hcol, log_incident_change_incidents,
        log_incident_change_archive, log_incident_change]

/-- Closed witness for `c9_amended_archive_collision`: the concrete collision
scenario stores the copy under the suffixed id and removes the live row. -/
theorem c9_amended_archive_collision_witness :
    (archive_incident stCollision "ICD9" "A1" none "20240101000000" "t1" false
        false).1 = (true, "Incident archived successfully") ∧
    (archive_incident stCollision "ICD9" "A1" none "20240101000000" "t1" false
        false).2.incident_archive =
      stCollision.incident_archive ++
        [{ icd_id := "ICD9" ++ "_ARCHIVED_" ++ "20240101000000",
           icd_timestamp := liveNine.icd_timestamp,
           resolved_timestamp := liveNine.resolved_timestamp,
           pending_timestamp := liveNine.pending_timestamp,
           cancelled_timestamp := liveNine.cancelled_timestamp,
           icd_status := liveNine.icd_status,
           assigned_responder_id := liveNine.assigned_responder_id,
           status_updated_at := liveNine.status_updated_at,
           status_updated_by := liveNine.status_updated_by,
           icd_category := liveNine.icd_category,
           icd_description := liveNine.icd_description,
           user_id := liveNine.user_id,
           archived_by := "A1",
           archive_reason :=
             if pyTruthy none then Option.getD none "" else "Archived by administrator",
           archived_at := "t1" }] ∧
    (archive_incident stCollision "ICD9" "A1" none "20240101000000" "t1" false
        false).2.incidents =
      stCollision.incidents.filter (fun i => i.icd_id != "ICD9") :=
  c9_amended_archive_collision stCollision "ICD9" "A1" none "20240101000000" "t1"
    false false liveNine (by decide) (by decide)

end EclipseSystem
